import Mathlib

/-!
Verification development for the AI-Resume-Analyzer pipeline (src/app.py).

Texts are modelled as `List Char`.  Python `str.lower`/`str.upper` are
modelled by `Char.toLower`/`Char.toUpper` (the source manipulates ASCII
text).  Python floats are modelled as exact rationals (`ℚ`) where the
score arithmetic is concerned, and as reals (`ℝ`) for the TF-IDF cosine
similarity (which involves square roots); the range and degenerate-case
properties proved here are insensitive to floating-point rounding.
-/

/-- Convert a string literal to the `List Char` representation used throughout. -/
def str (s : String) : List Char := s.data

/-- Model of Python `str.lower` (ASCII). -/
def lowerL (l : List Char) : List Char := l.map Char.toLower

/-- Model of Python `str.upper` (ASCII). -/
def upperL (l : List Char) : List Char := l.map Char.toUpper

/-- `needle` occurs as a contiguous substring of `hay` at the start:
model of Python `str.startswith`, used to build substring containment. -/
def headMatch : List Char → List Char → Bool
  | [], _ => true
  | _ :: _, [] => false
  | a :: as, b :: bs => a == b && headMatch as bs

/-- Model of Python's `needle in hay` substring test. -/
def containsSub (hay needle : List Char) : Bool :=
  match hay with
  | [] => needle.isEmpty
  | _ :: rest => headMatch needle hay || containsSub rest needle

/-- The six resume-structure indicators hard-coded in `is_valid_resume`
(src/app.py line 29). -/
def indicators : List (List Char) :=
  [str "experience", str "education", str "skills",
   str "projects", str "summary", str "history"]

/-- Shallow embedding of `is_valid_resume` (src/app.py lines 27-32):
lowercase the text, collect the indicators occurring as substrings,
valid iff at least two are found. -/
def is_valid_resume (text : List Char) : Bool :=
  2 ≤ (indicators.filter (fun i => containsSub (lowerL text) i)).length

/-- The indicator vocabulary exactly as the specification's claim lists it
(eight items, including `work history` and `qualification`). -/
def specIndicators : List (List Char) :=
  [str "experience", str "education", str "skills", str "projects",
   str "summary", str "history", str "work history", str "qualification"]

/-- Number of distinct spec-claimed indicators present in the lowercased text. -/
def specIndicatorCount (text : List Char) : Nat :=
  (specIndicators.filter (fun i => containsSub (lowerL text) i)).length

/-- Number of distinct source-code indicators present in the lowercased text. -/
def indicatorCount (text : List Char) : Nat :=
  (indicators.filter (fun i => containsSub (lowerL text) i)).length

/-- Python character class `\s` restricted to the whitespace characters
Python `str.strip` and `\s` agree on for ASCII text. -/
def isPyWs (c : Char) : Bool :=
  c == ' ' || c == '\t' || c == '\n' || c == '\r' || c == '\x0b' || c == '\x0c'

/-- Model of Python `str.strip()`: drop leading and trailing whitespace. -/
def pyStrip (l : List Char) : List Char :=
  ((l.dropWhile isPyWs).reverse.dropWhile isPyWs).reverse

/-- One step of Python `str.title()`: the Boolean records whether the
previous character was a cased (alphabetic) character. -/
def pyTitleAux : Bool → List Char → List Char
  | _, [] => []
  | prevAlpha, c :: rest =>
    (if c.isAlpha then (if prevAlpha then c.toLower else c.toUpper) else c)
      :: pyTitleAux c.isAlpha rest

/-- Model of Python `str.title()` (ASCII): the first letter of every
maximal alphabetic run is uppercased, the rest lowercased. -/
def pyTitle (l : List Char) : List Char := pyTitleAux false l

/-- Character class `\d` of the contact-info regex `\d{10}` (ASCII digits). -/
def isDigitC (c : Char) : Bool := c.isDigit

/-- Model of `re.search(r'\d{10}', s)`: some position is followed by ten
consecutive digits. -/
def hasTenDigitRun : List Char → Bool
  | [] => false
  | c :: rest =>
    (((c :: rest).take 10).length == 10 && ((c :: rest).take 10).all isDigitC)
      || hasTenDigitRun rest

/-- Character class `[\w\.-]` of the e-mail regex (ASCII). -/
def isEmailChar (c : Char) : Bool :=
  c.isAlphanum || c == '_' || c == '.' || c == '-'

/-- Model of `re.search(r'[\w\.-]+@[\w\.-]+', s)`: the pattern matches
somewhere iff some `'@'` has a `[\w\.-]` character immediately before it
and immediately after it. -/
def hasEmailToken : List Char → Bool
  | a :: b :: c :: rest =>
    (isEmailChar a && b == '@' && isEmailChar c) || hasEmailToken (b :: c :: rest)
  | _ => false

/-- The four section names hard-coded in `calculate_ats_score`
(src/app.py line 78). -/
def sectionsList : List (List Char) :=
  [str "experience", str "education", str "skills", str "summary"]

/-- `len(found_sections)` of src/app.py line 79. -/
def sectionsFoundCount (resume : List Char) : Nat :=
  (sectionsList.filter (fun s => containsSub (lowerL resume) s)).length

/-- `len([c for c in found_contact if c])` of src/app.py line 83: how many
of the two contact regexes match the (original-case) resume text. -/
def contactFoundCount (resume : List Char) : Nat :=
  (if hasTenDigitRun resume then 1 else 0) + (if hasEmailToken resume then 1 else 0)

/-- The accumulated score of `calculate_ats_score` before the final
`min(score, 100)` (src/app.py lines 77-83).  The job-description argument
is accepted but, as in the source, never used. -/
def ats_pre (resume _jd : List Char) (m : ℚ) : ℚ :=
  m * (7 / 10)
    + ((sectionsFoundCount resume : ℚ) / 4) * 15
    + ((contactFoundCount resume : ℚ) / 2) * 15

/-- Shallow embedding of `calculate_ats_score` (src/app.py lines 75-84). -/
def calculate_ats_score (resume jd : List Char) (m : ℚ) : ℚ :=
  min (ats_pre resume jd m) 100

/-- The pre-clamp score exactly as the specification phrases it:
70% weight on the match percent, 15 points scaled by the fraction of the
4-item section vocabulary found, 15 points scaled by the fraction of the
2 contact patterns found. -/
def specPreScore (resume : List Char) (m : ℚ) : ℚ :=
  (7 / 10) * m
    + 15 * ((sectionsList.countP (fun s => containsSub (lowerL resume) s) : ℚ) / 4)
    + 15 * ((([hasTenDigitRun, hasEmailToken].countP (fun p => p resume)) : ℚ) / 2)

/-- The missing-e-mail advisory of the report (src/app.py line 156):
shown exactly when the character `'@'` does not occur in the resume text. -/
def missingEmailAdvisory (resume : List Char) : Bool :=
  !(resume.contains '@')

/-- The ordered category → keyword-list mapping of `analyze_job_identity`
(src/app.py lines 40-46); Python dictionaries preserve insertion order, so
the iteration order below is the declaration order of the source. -/
def categoriesList : List (List Char × List (List Char)) :=
  [ (str "Development",
     [str "software", str "developer", str "engineer", str "frontend",
      str "backend", str "fullstack", str "coder", str "programming",
      str "python", str "java", str "react"]),
    (str "Sales",
     [str "sales", str "account executive", str "business development",
      str "inside sales", str "outreach", str "revenue", str "client"]),
    (str "Marketing",
     [str "marketing", str "seo", str "social media", str "content",
      str "branding", str "digital", str "copywriter"]),
    (str "Data & AI",
     [str "data scientist", str "data analyst", str "machine learning",
      str "ai", str "sql", str "tableau", str "statistics"]),
    (str "HR & Admin",
     [str "hr", str "human resources", str "recruiter", str "talent",
      str "admin", str "office", str "operations"]) ]

/-- Does some keyword of the category hit the (already lowercased) text?
This is `any(kw in text_lower for kw in keywords)` of src/app.py line 51. -/
def catHits (p : List Char × List (List Char)) (textLower : List Char) : Bool :=
  p.2.any (fun kw => containsSub textLower kw)

/-- The category-detection loop with `break` of src/app.py lines 49-53. -/
def detectCategoryAux : List (List Char × List (List Char)) → List Char → List Char
  | [], _ => str "Other Professional"
  | c :: rest, tl => if catHits c tl then c.1 else detectCategoryAux rest tl

/-- Category stage of `analyze_job_identity`: first category (in
declaration order) with a keyword hit in the lowercased text, defaulting
to `"Other Professional"`. -/
def detectCategory (text : List Char) : List Char :=
  detectCategoryAux categoriesList (lowerL text)

/-- Character class `[:\s]` of title patterns 1-3. -/
def sepColonWs (c : Char) : Bool := c == ':' || isPyWs c

/-- Character class `[^\n]` of title patterns 1-3 (the captured group). -/
def capNotNl (c : Char) : Bool := !(c == '\n')

/-- Character class `[^\n,.]` of the `looking for a` pattern. -/
def capNotNlCommaDot (c : Char) : Bool :=
  !(c == '\n') && !(c == ',') && !(c == '.')

/-- Backtracking step for `SEP+ (CAP+)`: given the suffix after the
literal and the length of its maximal `SEP` run, find the largest number
of characters `k ≥ 1` the `SEP+` part can consume such that the next
character exists and lies in `CAP` (regex greediness with backtracking). -/
def findSepLen (rest : List Char) (cap : Char → Bool) : Nat → Option Nat
  | 0 => none
  | Nat.succ k =>
    match rest.get? (Nat.succ k) with
    | some c => if cap c then some (Nat.succ k) else findSepLen rest cap k
    | none => findSepLen rest cap k

/-- Anchored match of a pattern `(?i)LIT SEP+ (CAP+)` at the start of `s`:
the literal is compared case-insensitively, `SEP+` consumes greedily with
backtracking, and the returned capture is the maximal `CAP` run after it. -/
def matchAt (lit : List Char) (sep cap : Char → Bool) (s : List Char) :
    Option (List Char) :=
  if (s.take lit.length).map Char.toLower == lit then
    let rest := s.drop lit.length
    match findSepLen rest cap ((rest.takeWhile sep).length) with
    | some k => some ((rest.drop k).takeWhile cap)
    | none => none
  else none

/-- Model of `re.search` for the patterns of src/app.py lines 57-62:
leftmost position where the anchored match succeeds. -/
def searchPat (lit : List Char) (sep cap : Char → Bool) : List Char → Option (List Char)
  | [] => none
  | c :: rest =>
    match matchAt lit sep cap (c :: rest) with
    | some g => some g
    | none => searchPat lit sep cap rest

/-- The ordered list of title patterns of src/app.py lines 57-62, each as
a search function from text to the captured group. -/
def titlePatterns : List (List Char → Option (List Char)) :=
  [ searchPat (str "job title") sepColonWs capNotNl,
    searchPat (str "position") sepColonWs capNotNl,
    searchPat (str "role") sepColonWs capNotNl,
    searchPat (str "looking for a") isPyWs capNotNlCommaDot ]

/-- The pattern loop with `break` of src/app.py lines 63-67: capture of
the first pattern that matches. -/
def firstCapture : List (List Char → Option (List Char)) → List Char → Option (List Char)
  | [], _ => none
  | p :: ps, text =>
    match p text with
    | some g => some g
    | none => firstCapture ps text

/-- Shallow embedding of `analyze_job_identity` (src/app.py lines 34-73):
returns the `(job_title, detected_category)` pair. -/
def analyze_job_identity (text : List Char) : List Char × List Char :=
  let cat := detectCategory text
  let title0 :=
    match firstCapture titlePatterns text with
    | some g => pyTitle (pyStrip g)
    | none => str "Generic Professional Role"
  let title :=
    if title0 == str "Generic Professional Role" && !(cat == str "Other Professional")
    then cat ++ str " Specialist" else title0
  (title, cat)

/-- Word character of scikit-learn's default token pattern `\b\w\w+\b`. -/
def isWordChar (c : Char) : Bool := c.isAlphanum || c == '_'

/-- Split into maximal word-character runs (accumulator holds the current
run reversed). -/
def wordRunsAux : List Char → List Char → List (List Char)
  | acc, [] => if acc.isEmpty then [] else [acc.reverse]
  | acc, c :: rest =>
    if isWordChar c then wordRunsAux (c :: acc) rest
    else if acc.isEmpty then wordRunsAux [] rest
    else acc.reverse :: wordRunsAux [] rest

/-- Tokenization of `TfidfVectorizer` with its defaults (src/app.py
line 127): lowercase, then keep the maximal word-character runs of length
at least two (token pattern `\b\w\w+\b`). -/
def sklearnTokens (s : List Char) : List (List Char) :=
  (wordRunsAux [] (lowerL s)).filter (fun r => 2 ≤ r.length)

/-- The fitted vocabulary over the two-document corpus (duplicates
removed; the order of the vocabulary does not affect the similarity). -/
def vocab (a b : List Char) : List (List Char) :=
  (sklearnTokens a ++ sklearnTokens b).dedup

/-- Document frequency of a term over the corpus `{a, b}`. -/
def docFreq (a b : List Char) (w : List Char) : ℕ :=
  (if w ∈ sklearnTokens a then 1 else 0) + (if w ∈ sklearnTokens b then 1 else 0)

/-- Smoothed inverse document frequency of `TfidfVectorizer`
(`smooth_idf=True`, `n = 2` documents): `ln((1+n)/(1+df)) + 1`. -/
noncomputable def idf (a b : List Char) (w : List Char) : ℝ :=
  Real.log ((1 + 2) / (1 + (docFreq a b w : ℝ))) + 1

/-- Raw tf-idf weight of term `w` in document `x` of the corpus `{a, b}`. -/
noncomputable def tfidf (a b x : List Char) (w : List Char) : ℝ :=
  (List.count w (sklearnTokens x) : ℝ) * idf a b w

/-- Dot product of the raw tf-idf rows of documents `x` and `y`. -/
noncomputable def rowDot (a b x y : List Char) : ℝ :=
  ((vocab a b).map (fun w => tfidf a b x w * tfidf a b y w)).sum

/-- Normalization factor used by `normalize`/`cosine_similarity`: the
Euclidean norm of the row, with zero rows left untouched (scikit-learn
replaces a zero norm by 1, which is what makes the cosine of a zero
vector 0 rather than a division-by-zero failure). -/
noncomputable def nrm (a b x : List Char) : ℝ :=
  if rowDot a b x x = 0 then 1 else Real.sqrt (rowDot a b x x)

/-- The value `cosine_similarity(matrix[0:1], matrix[1:2])[0][0]` of
src/app.py line 129 (the row normalization of `TfidfVectorizer` and the
one of `cosine_similarity` compose to a single normalization). -/
noncomputable def simRaw (a b : List Char) : ℝ :=
  rowDot a b a b / (nrm a b a * nrm a b b)

/-- The whole similarity computation of src/app.py lines 127-129.
`TfidfVectorizer.fit_transform` raises `ValueError: empty vocabulary`
when no document of the corpus contributes any token; this fallible
behaviour is modelled with `Except`. -/
noncomputable def similarity (a b : List Char) : Except Unit ℝ :=
  if vocab a b = [] then Except.error () else Except.ok (simRaw a b)

/-- A spaCy token as consumed by the keyword extraction of src/app.py
lines 136-139: its text, its part-of-speech tag and its stopword flag.
The tagger itself is the external `en_core_web_sm` model; every theorem
about the keyword sets is proved for an arbitrary tagger. -/
structure SpacyTok where
  text : List Char
  pos : List Char
  stop : Bool

/-- The keyword tokens of a document (src/app.py lines 138-139): run the
tagger on the lowercased text, keep proper nouns and nouns that are not
stopwords, uppercase their text. -/
def keyTokens (tagger : List Char → List SpacyTok) (doc : List Char) :
    List (List Char) :=
  ((tagger (lowerL doc)).filter
      (fun t => (t.pos == str "PROPN" || t.pos == str "NOUN") && !t.stop)).map
    (fun t => upperL t.text)

/-- `job_keys` / `res_keys` of src/app.py lines 138-139 (`set(...)`). -/
def keySet (tagger : List Char → List SpacyTok) (doc : List Char) :
    Finset (List Char) :=
  (keyTokens tagger doc).toFinset

/-- `job_keys.intersection(res_keys)` of src/app.py line 144. -/
def matchedKeys (tagger : List Char → List SpacyTok) (res jd : List Char) :
    Finset (List Char) :=
  keySet tagger jd ∩ keySet tagger res

/-- `missing = job_keys - res_keys` of src/app.py line 140. -/
def missingKeys (tagger : List Char → List SpacyTok) (res jd : List Char) :
    Finset (List Char) :=
  keySet tagger jd \ keySet tagger res

/-- The title-detection stage exactly as the (amended) specification
sentence describes it: the four patterns tried in priority order, the
first capture trimmed and title-cased, with the source's fallback when
the resulting string is the generic placeholder. -/
def titleSpec (text : List Char) : List Char :=
  let cat := detectCategory text
  let fromPat :=
    match searchPat (str "job title") sepColonWs capNotNl text with
    | some g => some g
    | none =>
      match searchPat (str "position") sepColonWs capNotNl text with
      | some g => some g
      | none =>
        match searchPat (str "role") sepColonWs capNotNl text with
        | some g => some g
        | none => searchPat (str "looking for a") isPyWs capNotNlCommaDot text
  match fromPat with
  | some g =>
    if pyTitle (pyStrip g) == str "Generic Professional Role"
        && !(cat == str "Other Professional")
    then cat ++ str " Specialist" else pyTitle (pyStrip g)
  | none =>
    if !(cat == str "Other Professional")
    then cat ++ str " Specialist" else str "Generic Professional Role"

/-- The professional-role vocabulary of the specification's noun-phrase
chunking fallback. -/
def roleWords : List (List Char) :=
  [str "engineer", str "manager", str "developer", str "analyst", str "lead"]

/-- Modelled from the spec: the noun-phrase-chunking title fallback the
specification describes is absent from src/app.py (it belongs to the
repository's second app variant, which is not under src/).  The chunker
itself is the external spaCy model; the one commitment taken from the
spec's words is that noun chunks are contiguous spans of the examined
~200-character prefix, so the candidate chunks qualifying for the
fallback (those containing a professional-role word) are exactly the
substrings of the prefix in which a role word occurs.  Per the claim,
when this list is nonempty the title is the title-casing of one of its
elements. -/
def chunkTitleCandidates (text : List Char) : List (List Char) :=
  ((text.take 200).tails.map (fun t => t.inits)).flatten.filter
    (fun c => roleWords.any (fun w => containsSub (lowerL c) w))

/-- C1 counterexample: for the (adversarial) lexical-match percent
`-1000` the score is negative, so the result is not within `[0,100]` for
every lexical-match-percent value: only the upper bound is clamped. -/
theorem ats_score_below_zero_cex :
    calculate_ats_score (str "") (str "") (-1000) < 0 := by
  have h1 : sectionsFoundCount (str "") = 0 := by decide
  have h2 : contactFoundCount (str "") = 0 := by decide
  unfold calculate_ats_score ats_pre
  rw [h1, h2]
  norm_num [min_def]

/-- C1 (amended): for every pair of input texts and every nonnegative
lexical-match percent (the similarity engine only produces values in
`[0,100]`), `calculate_ats_score` returns a value within `[0,100]`, even
when every weighted component is maximal (the sum is clamped at 100). -/
theorem ats_score_in_range (resume jd : List Char) (m : ℚ) (hm : 0 ≤ m) :
    0 ≤ calculate_ats_score resume jd m ∧ calculate_ats_score resume jd m ≤ 100 := by
  constructor
  · have h : 0 ≤ ats_pre resume jd m := by
      unfold ats_pre
      have t1 : 0 ≤ m * (7 / 10 : ℚ) := mul_nonneg hm (by norm_num)
      have t2 : 0 ≤ ((sectionsFoundCount resume : ℚ) / 4) * 15 := by positivity
      have t3 : 0 ≤ ((contactFoundCount resume : ℚ) / 2) * 15 := by positivity
      linarith
    exact le_min h (by norm_num)
  · exact min_le_right _ _

/-- Witness for `ats_score_in_range` at resume `"experience"`, empty job
description and match percent 50. -/
theorem ats_score_in_range_witness :
    0 ≤ calculate_ats_score (str "experience") (str "") 50 ∧
    calculate_ats_score (str "experience") (str "") 50 ≤ 100 :=
  ats_score_in_range (str "experience") (str "") 50 (by norm_num)

/-- C2: for every resume text, job-description text and match percent,
the pre-clamp ATS score equals `0.7·m` plus 15 times the fraction of the
4-item section vocabulary found in the resume plus 15 times the fraction
of the 2 contact patterns found in the resume. -/
theorem ats_pre_eq_spec (resume jd : List Char) (m : ℚ) :
    ats_pre resume jd m = specPreScore resume m := by
  unfold ats_pre specPreScore sectionsFoundCount contactFoundCount
  rw [List.countP_eq_length_filter]
  cases h1 : hasTenDigitRun resume <;> cases h2 : hasEmailToken resume <;>
    simp [List.countP_cons, List.countP_nil, h1, h2] <;> ring

/-- C3 counterexample: the text `"qualification history"` contains two
indicators of the claim's eight-item vocabulary (`qualification` and
`history`), yet `is_valid_resume` returns `false`: the source's
vocabulary has only six items, without `work history` and
`qualification`. -/
theorem valid_resume_vocab_cex :
    is_valid_resume (str "qualification history") = false ∧
    2 ≤ specIndicatorCount (str "qualification history") := by
  exact ⟨by decide, by decide⟩

/-- C3 (amended): `is_valid_resume` returns `true` iff at least 2
distinct indicators of the six-item source vocabulary `{experience,
education, skills, projects, summary, history}` occur as substrings of
the lowercased text; with at most 1 present it returns `false`. -/
theorem valid_resume_iff (text : List Char) :
    is_valid_resume text = true ↔ 2 ≤ indicatorCount text := by
  unfold is_valid_resume indicatorCount
  exact decide_eq_true_iff

/-- Witness for `valid_resume_iff`: a text with two indicators is valid. -/
theorem valid_resume_iff_witness :
    is_valid_resume (str "Experience and Education sections") = true :=
  (valid_resume_iff (str "Experience and Education sections")).mpr (by decide)

/-- C10: the missing-e-mail advisory is shown exactly when `'@'` does not
occur in the resume text; this test is independent of the e-mail regex of
the scorer: the text `"see @ above"` contains `'@'` (advisory
suppressed) while the e-mail pattern does not match it (no e-mail point
awarded). -/
theorem email_advisory_independent :
    (∀ t : List Char, (missingEmailAdvisory t = true ↔ '@' ∉ t)) ∧
    missingEmailAdvisory (str "see @ above") = false ∧
    hasEmailToken (str "see @ above") = false := by
  refine ⟨fun t => ?_, by decide, by decide⟩
  unfold missingEmailAdvisory
  simp

/-- Witness for `email_advisory_independent`: a text without `'@'`
triggers the advisory. -/
theorem email_advisory_independent_witness :
    missingEmailAdvisory (str "no contact info") = true :=
  (email_advisory_independent.1 (str "no contact info")).mpr (by decide)

/-- C9: for every part-of-speech tagger and every pair of texts, the
matched set is the intersection of the two keyword sets, and the missing
set (job keywords minus resume keywords) is a subset of the
job-description keyword set and disjoint from the resume keyword set. -/
theorem keyword_sets_algebra (tagger : List Char → List SpacyTok)
    (res jd : List Char) :
    matchedKeys tagger res jd = keySet tagger jd ∩ keySet tagger res ∧
    missingKeys tagger res jd ⊆ keySet tagger jd ∧
    Disjoint (missingKeys tagger res jd) (keySet tagger res) :=
  ⟨rfl, Finset.sdiff_subset, Finset.sdiff_disjoint⟩

/-- Witness for `keyword_sets_algebra` at the trivial tagger. -/
theorem keyword_sets_algebra_witness :
    missingKeys (fun _ => []) (str "") (str "resume") ⊆ keySet (fun _ => []) (str "resume") :=
  (keyword_sets_algebra (fun _ => []) (str "") (str "resume")).2.1

/-- If no category of the list hits the lowercased text, the detection
loop falls through to the default. -/
theorem detectCategoryAux_all_miss (L : List (List Char × List (List Char)))
    (tl : List Char) (h : L.all (fun p => ! catHits p tl) = true) :
    detectCategoryAux L tl = str "Other Professional" := by
  induction L with
  | nil => rfl
  | cons c rest ih =>
    simp only [List.all_cons, Bool.and_eq_true, Bool.not_eq_true'] at h
    unfold detectCategoryAux
    simp only [h.1, if_false, Bool.false_eq_true]
    exact ih h.2

/-- If the category at position `i` hits and no earlier one does, the
detection loop returns that category's name. -/
theorem detectCategoryAux_first_hit (L : List (List Char × List (List Char)))
    (tl : List Char) :
    ∀ (i : Nat) (cat : List Char) (kws : List (List Char)),
      L.get? i = some (cat, kws) →
      catHits (cat, kws) tl = true →
      (L.take i).all (fun p => ! catHits p tl) = true →
      detectCategoryAux L tl = cat := by
  induction L with
  | nil => intro i cat kws h _ _; simp at h
  | cons c rest ih =>
    intro i cat kws hget hhit hprev
    cases i with
    | zero =>
      simp only [List.get?_cons_zero, Option.some_inj] at hget
      subst hget
      simp [detectCategoryAux, hhit]
    | succ n =>
      simp only [List.get?_cons_succ] at hget
      simp only [List.take_succ_cons, List.all_cons, Bool.and_eq_true,
        Bool.not_eq_true'] at hprev
      unfold detectCategoryAux
      simp only [hprev.1, if_false, Bool.false_eq_true]
      exact ih n cat kws hget hhit hprev.2

/-- C4 counterexample: on a text hitting no category keyword, the
detected category is the string `"Other Professional"`, not `"Other"` as
the claim states. -/
theorem category_default_cex :
    (categoriesList.all (fun p => ! catHits p (lowerL (str ""))) = true) ∧
    detectCategory (str "") = str "Other Professional" ∧
    str "Other Professional" ≠ str "Other" := by
  exact ⟨by decide, by decide, by decide⟩

/-- C4 (amended): category detection iterates the fixed ordered mapping
and selects the first category with any case-insensitive substring hit
(for a text hitting two categories the one declared earlier wins), and
returns the default category `"Other Professional"` when no category's
keywords hit. -/
theorem category_first_match (text : List Char) :
    (categoriesList.all (fun p => ! catHits p (lowerL text)) = true →
      detectCategory text = str "Other Professional") ∧
    (∀ (i : Nat) (cat : List Char) (kws : List (List Char)),
      categoriesList.get? i = some (cat, kws) →
      catHits (cat, kws) (lowerL text) = true →
      (categoriesList.take i).all (fun p => ! catHits p (lowerL text)) = true →
      detectCategory text = cat) := by
  constructor
  · intro h
    exact detectCategoryAux_all_miss categoriesList (lowerL text) h
  · intro i cat kws hget hhit hprev
    exact detectCategoryAux_first_hit categoriesList (lowerL text) i cat kws hget hhit hprev

/-- Witness for `category_first_match`: `"sales job"` hits the `Sales`
keywords but no `Development` keyword, so the second category wins. -/
theorem category_first_match_witness :
    detectCategory (str "sales job") = str "Sales" :=
  (category_first_match (str "sales job")).2 1 (str "Sales")
    [str "sales", str "account executive", str "business development",
     str "inside sales", str "outreach", str "revenue", str "client"]
    (by decide) (by decide) (by decide)

/-- C5 counterexample: the claim includes a `hiring for` pattern, but the
source has none: on `"hiring for data wizard\nx"` no pattern matches and
the title is the generic placeholder instead of `"Data Wizard"`. -/
theorem title_hiring_for_cex :
    analyze_job_identity (str "hiring for data wizard\nx")
      = (str "Generic Professional Role", str "Other Professional") ∧
    str "Generic Professional Role" ≠ str "Data Wizard" := by
  exact ⟨by decide, by decide⟩

/-- C5 (amended): title detection applies, in priority order, the
patterns for `job title:`, `position:`, `role:` and `looking for a`
(there is no `hiring for` pattern); the first matching pattern's capture,
trimmed and title-cased, is the job title — except that when that string
is exactly `"Generic Professional Role"` and a non-default category was
detected, the source's fallback replaces it by `"<Category> Specialist"`.
In particular `"Job Title: Senior Backend Engineer\n"` yields
`"Senior Backend Engineer"`. -/
theorem title_detection :
    (∀ text : List Char, (analyze_job_identity text).1 = titleSpec text) ∧
    (analyze_job_identity (str "Job Title: Senior Backend Engineer\n")).1
      = str "Senior Backend Engineer" := by
  constructor
  · intro text
    unfold analyze_job_identity titleSpec
    simp only [titlePatterns, firstCapture]
    cases h1 : searchPat (str "job title") sepColonWs capNotNl text with
    | some g => simp
    | none =>
      cases h2 : searchPat (str "position") sepColonWs capNotNl text with
      | some g => simp
      | none =>
        cases h3 : searchPat (str "role") sepColonWs capNotNl text with
        | some g => simp
        | none =>
          cases h4 : searchPat (str "looking for a") isPyWs capNotNlCommaDot text with
          | some g => simp
          | none => simp
  · decide

/-- C6 counterexample: on `"an analyst"` no pattern matches and no
category hits, and the examined prefix does contain qualifying chunk
candidates (substrings containing the role word `analyst`), yet the
source returns the generic placeholder — which is not the title-casing
of any candidate chunk.  src/app.py has no noun-phrase-chunking
fallback. -/
theorem title_no_chunking_cex :
    analyze_job_identity (str "an analyst")
      = (str "Generic Professional Role", str "Other Professional") ∧
    chunkTitleCandidates (str "an analyst") ≠ [] ∧
    ((chunkTitleCandidates (str "an analyst")).all
        (fun c => !(pyTitle c == str "Generic Professional Role"))) = true := by
  exact ⟨by decide, by decide, by decide⟩

/-- C6 (amended): when no title pattern matches, the title is
`"<Category> Specialist"` if a category other than the default was
detected, and `"Generic Professional Role"` otherwise — the source has no
noun-phrase-chunking fallback, so the text's content beyond the category
keywords is never consulted. -/
theorem title_fallback (text : List Char)
    (h : firstCapture titlePatterns text = none) :
    (detectCategory text ≠ str "Other Professional" →
      (analyze_job_identity text).1 = detectCategory text ++ str " Specialist") ∧
    (detectCategory text = str "Other Professional" →
      (analyze_job_identity text).1 = str "Generic Professional Role") := by
  unfold analyze_job_identity
  rw [h]
  constructor
  · intro hne
    simp [hne]
  · intro he
    simp [he]

/-- Witness for `title_fallback`: `"sales team"` matches no pattern and
hits the `Sales` category, so the title is `"Sales Specialist"`. -/
theorem title_fallback_witness :
    (analyze_job_identity (str "sales team")).1
      = detectCategory (str "sales team") ++ str " Specialist" :=
  (title_fallback (str "sales team") (by decide)).1 (by decide)

/-- C7 counterexample: when both texts are tokenless (here: both empty)
the vectorizer's vocabulary is empty and `fit_transform` raises
`ValueError: empty vocabulary` — an exception, where the claim promises
similarity 0 with no exception for every pair with an empty text. -/
theorem similarity_both_empty_cex :
    similarity (str "") (str "") = Except.error () := by
  unfold similarity
  rw [if_pos (by decide)]

/-- Each addend of `rowDot` with both factors over the same document is a
square, hence nonnegative. -/
theorem rowDot_self_nonneg (a b x : List Char) : 0 ≤ rowDot a b x x := by
  unfold rowDot
  apply List.sum_nonneg
  intro y hy
  rcases List.mem_map.mp hy with ⟨w, _, rfl⟩
  exact mul_self_nonneg _

/-- C7 (amended): whenever at least one of the two texts contributes a
token, and either text is tokenless or the two share no token, the
similarity is 0 and no error is raised (the cosine of a zero vector is
0 by the zero-norm guard).  When neither text has a token the vectorizer
instead raises an empty-vocabulary error (see the counterexample). -/
theorem similarity_degenerate (a b : List Char)
    (hvocab : vocab a b ≠ [])
    (h : sklearnTokens a = [] ∨ sklearnTokens b = []
         ∨ (sklearnTokens a).all (fun w => !((sklearnTokens b).contains w)) = true) :
    similarity a b = Except.ok 0 := by
  unfold similarity
  rw [if_neg hvocab]
  have hnum : rowDot a b a b = 0 := by
    unfold rowDot
    apply List.sum_eq_zero
    intro y hy
    rcases List.mem_map.mp hy with ⟨w, _, rfl⟩
    have hcc : List.count w (sklearnTokens a) = 0 ∨ List.count w (sklearnTokens b) = 0 := by
      rcases h with h | h | h
      · exact Or.inl (by rw [h]; rfl)
      · exact Or.inr (by rw [h]; rfl)
      · by_cases hmem : w ∈ sklearnTokens a
        · have hb := List.all_eq_true.mp h w hmem
          have hnb : w ∉ sklearnTokens b := by
            simpa using hb
          exact Or.inr (List.count_eq_zero.mpr hnb)
        · exact Or.inl (List.count_eq_zero.mpr hmem)
    unfold tfidf
    rcases hcc with hc | hc <;> rw [hc] <;> push_cast <;> ring
  have hsim : simRaw a b = 0 := by
    unfold simRaw
    rw [hnum, zero_div]
  rw [hsim]

/-- Witness for `similarity_degenerate`: the empty resume against
`"anything"` yields similarity 0 with no exception. -/
theorem similarity_degenerate_witness :
    similarity (str "") (str "anything") = Except.ok 0 :=
  similarity_degenerate (str "") (str "anything") (by decide) (Or.inl (by decide))

/-- C8 counterexample: `"a"` is a non-empty text, but it contributes no
token (the token pattern needs two word characters), so the text matched
against itself raises the empty-vocabulary error instead of scoring
similarity ≈ 1. -/
theorem similarity_self_cex :
    str "a" ≠ ([] : List Char) ∧
    similarity (str "a") (str "a") = Except.error () := by
  constructor
  · decide
  · unfold similarity
    rw [if_pos (by decide)]

/-- C8 (amended): for every text with at least one token, the TF-IDF
cosine similarity of the text with itself is exactly 1 (in floating
point, ≈ 1.0). -/
theorem similarity_self (T : List Char) (h : sklearnTokens T ≠ []) :
    similarity T T = Except.ok 1 := by
  have hvocab : vocab T T ≠ [] := by
    intro hv
    have : sklearnTokens T ++ sklearnTokens T = [] := (List.dedup_eq_nil _).mp hv
    exact h (List.append_eq_nil.mp this).1
  rcases List.exists_mem_of_ne_nil _ hvocab with ⟨w, hwv⟩
  have hwT : w ∈ sklearnTokens T := by
    have := List.mem_dedup.mp hwv
    rcases List.mem_append.mp this with hh | hh <;> exact hh
  have hidf : idf T T w = 1 := by
    unfold idf
    have hdf : docFreq T T w = 2 := by
      unfold docFreq
      rw [if_pos hwT]
    rw [hdf]
    norm_num
  have htf : 0 < tfidf T T T w := by
    unfold tfidf
    rw [hidf, mul_one]
    exact_mod_cast List.count_pos_iff.mpr hwT
  have hS : 0 < rowDot T T T T := by
    have hmem : tfidf T T T w * tfidf T T T w
        ∈ (vocab T T).map (fun u => tfidf T T T u * tfidf T T T u) :=
      List.mem_map_of_mem _ hwv
    have hle : tfidf T T T w * tfidf T T T w ≤ rowDot T T T T := by
      unfold rowDot
      exact List.single_le_sum (fun y hy => by
        rcases List.mem_map.mp hy with ⟨u, _, rfl⟩
        exact mul_self_nonneg _) _ hmem
    exact lt_of_lt_of_le (mul_pos htf htf) hle
  have hnrm : nrm T T T = Real.sqrt (rowDot T T T T) := by
    unfold nrm
    rw [if_neg (ne_of_gt hS)]
  have hsim : simRaw T T = 1 := by
    unfold simRaw
    rw [hnrm, Real.mul_self_sqrt (le_of_lt hS)]
    exact div_self (ne_of_gt hS)
  unfold similarity
  rw [if_neg hvocab, hsim]

/-- Witness for `similarity_self`: `"hello"` contributes a token and
scores similarity 1 against itself. -/
theorem similarity_self_witness :
    similarity (str "hello") (str "hello") = Except.ok 1 :=
  similarity_self (str "hello") (by decide)
